import Mathlib

/-!
Shallow embedding of the ferticlaude patient-record persistence and
AI-interaction audit flow:

* `src/src/app/api/ai/process/route.ts` — consultation orchestrator
  (`POST`, namespace `AiProcessRoute`) and history reader (`GET`,
  namespace `AiProcessRoute`);
* the patients directory route in the same file after the document
  separator (`GET`, namespace `PatientsRoute`);
* `src/unnamed/part_001` — the `fertilityDB` prisma wrappers
  (namespace `fertilityDB`);
* `src/unnamed/part_005` — the SQL schema (record types below).

Conventions of the embedding:

* JavaScript strings are `String`, timestamps are `Int`, JS numbers that
  only ever hold parsed integers are `Int` (exact, where the source works
  with IEEE doubles; all clamping logic in the routes is insensitive to
  the difference for any limit parameter a caller can influence), and
  `DOUBLE PRECISION` columns that are only stored and echoed back
  (`confidence_score`) are `Rat`.
* A nullable JS value (`null` / `undefined` / absent field) is `Option`.
* A request-body field read through `typeof x === 'string'` is
  `Option String`: `some s` iff the field is present and a string.
* Prisma calls are executed against an explicit `Store` value; each
  operation returns its result together with the resulting store.
  Operations that can reject return `Except String`.
* Exceptions thrown by the external collaborators (the JSON body parser,
  the store client, the Groq inference client) are injected through
  explicit fault flags, mirroring the vitest mocks in the repository's
  test suite.
* Each handler also returns a `Trace` counting collaborator calls, so
  that "no inference call / no audit read / no audit insert" claims are
  statable.
-/

namespace FertiClaude

/-! ## JavaScript primitives -/

/-- Model of JavaScript `String.prototype.trim`: strip leading and
trailing whitespace. Implemented over the character list so that it
evaluates definitionally (JS also strips further Unicode space
characters; the routes only ever feed it JSON/query strings where the
difference is immaterial to the claims). -/
def jsTrim (s : String) : String :=
  ⟨((s.data.dropWhile Char.isWhitespace).reverse.dropWhile Char.isWhitespace).reverse⟩

/-- Lowercasing, implemented over the character list so that it
evaluates definitionally. -/
def jsToLower (s : String) : String := ⟨s.data.map Char.toLower⟩

/-- Value of a decimal digit character. -/
def digitVal (c : Char) : Nat := c.toNat - 48

/-- The leading run of decimal digits of a character list. -/
def leadingDigits (cs : List Char) : List Char := cs.takeWhile Char.isDigit

/-- Decimal value of a digit run. -/
def digitsToNat (ds : List Char) : Nat := ds.foldl (fun a c => a * 10 + digitVal c) 0

/-- Model of JavaScript `parseInt(s, 10)` (= `Number.parseInt(s, 10)`):
skip leading whitespace, read an optional sign and then the longest run
of decimal digits; `none` models `NaN` (no digits found). -/
def parseIntJS (s : String) : Option Int :=
  match (jsTrim s).data with
  | '-' :: rest =>
      let ds := leadingDigits rest
      if ds.isEmpty then none else some (-(digitsToNat ds : Int))
  | '+' :: rest =>
      let ds := leadingDigits rest
      if ds.isEmpty then none else some (digitsToNat ds : Int)
  | cs =>
      let ds := leadingDigits cs
      if ds.isEmpty then none else some (digitsToNat ds : Int)

/-- Does `needle` occur as a contiguous sublist of `hay`? -/
def containsList (needle : List Char) : List Char → Bool
  | [] => needle.isEmpty
  | c :: t => needle.isPrefixOf (c :: t) || containsList needle t

/-- Model of a Prisma `contains` filter with `mode: 'insensitive'`:
case-insensitive substring test (`needle` inside `hay`). -/
def lowerContains (hay needle : String) : Bool :=
  containsList (jsToLower needle).data (jsToLower hay).data

/-- Model of Prisma's `take` argument on `findMany`: a nonnegative take
returns the first `n` rows of the ordered result; a negative take
returns the last `|n|` rows, preserving the ordering (Prisma's
documented pagination semantics for negative `take`). -/
def prismaTake {α : Type} (n : Int) (l : List α) : List α :=
  if 0 ≤ n then l.take n.toNat else l.drop (l.length - (-n).toNat)

/-! ## Data model (from the SQL schema in `src/unnamed/part_005`) -/

/-- Row of the `patients` table (columns relevant to the audit flow). -/
structure Patient where
  id : String
  clinicId : String
  mrn : String
  firstName : String
  lastName : String
  dateOfBirth : Int
  phone : Option String
  email : Option String
  createdAt : Int
  updatedAt : Int
deriving Repr, DecidableEq

/-- The `CycleStatus` enum. -/
inductive CycleStatus where
  | PLANNING | STIMULATION | MONITORING | TRIGGER | RETRIEVAL | FERTILIZATION
  | TRANSFER | TWW | POSITIVE | NEGATIVE | CANCELLED | COMPLETED
deriving Repr, DecidableEq

/-- Row of the `treatment_cycles` table (columns relevant to the audit flow). -/
structure TreatmentCycle where
  id : String
  patientId : String
  cycleNumber : Int
  protocolType : Option String
  startDate : Option Int
  status : CycleStatus
  createdAt : Int
deriving Repr, DecidableEq

/-- Row of the `lab_results` table (columns relevant to the audit flow); the JSONB
payloads are kept opaque as their serialized text. -/
structure LabResult where
  id : String
  patientId : String
  cycleId : Option String
  testType : String
  values : String
  referenceRange : Option String
  testDate : Int
  createdAt : Int
deriving Repr, DecidableEq

/-- The `input_data` JSONB payload built by `fertilityDB.logAIInteraction`:
`{ input, context? }`; the context object is kept as an association list. -/
structure InputPayload where
  input : String
  context : Option (List (String × String))
deriving Repr, DecidableEq

/-- The `prediction_result` JSONB payload `{ output, model }`. -/
structure PredictionResult where
  output : String
  model : String
deriving Repr, DecidableEq

/-- Row of the `ai_predictions` table (the audit record). -/
structure AIPrediction where
  id : String
  patientId : String
  cycleId : Option String
  predictionType : String
  inputData : InputPayload
  predictionResult : PredictionResult
  confidenceScore : Rat
  modelVersion : String
  createdAt : Int
deriving Repr, DecidableEq

/-- The relational store: one list per table of the audit flow, in
insertion order. -/
structure Store where
  patients : List Patient
  cycles : List TreatmentCycle
  labResults : List LabResult
  predictions : List AIPrediction
deriving Repr, DecidableEq

/-- Model of `prisma.patient.findUnique({ where: { id } })`. -/
def findUniquePatient (s : Store) (pid : String) : Option Patient :=
  s.patients.find? (fun p => p.id == pid)

/-- Does a patient with the given id exist in the store? -/
def patientExists (s : Store) (pid : String) : Bool :=
  (findUniquePatient s pid).isSome

/-- Collaborator-call counters for one request. -/
structure Trace where
  inferCalls : Nat
  patientReads : Nat
  auditReads : Nat
  auditInserts : Nat
deriving Repr, DecidableEq

/-- The empty trace. -/
def Trace.zero : Trace := ⟨0, 0, 0, 0⟩

/-! ## Ordered reads

SQL `ORDER BY` is modelled by `List.insertionSort` with a total,
transitive comparison relation built from the `orderBy` keys. -/

/-- Comparison for `orderBy: { createdAt: 'desc' }` on `ai_predictions`. -/
def predOrder (a b : AIPrediction) : Prop := b.createdAt ≤ a.createdAt

instance : DecidableRel predOrder := fun a b =>
  inferInstanceAs (Decidable (b.createdAt ≤ a.createdAt))

instance : IsTotal AIPrediction predOrder :=
  ⟨fun a b => le_total b.createdAt a.createdAt⟩

instance : IsTrans AIPrediction predOrder :=
  ⟨fun _ _ _ hab hbc => le_trans hbc hab⟩

/-- Comparison for `orderBy: [{ updatedAt: 'desc' }, { createdAt: 'desc' }]` on
`patients`: most recently updated first, ties broken by most recently
created first. -/
def patOrder (a b : Patient) : Prop :=
  b.updatedAt < a.updatedAt ∨ (a.updatedAt = b.updatedAt ∧ b.createdAt ≤ a.createdAt)

instance : DecidableRel patOrder := fun a b =>
  inferInstanceAs (Decidable
    (b.updatedAt < a.updatedAt ∨ (a.updatedAt = b.updatedAt ∧ b.createdAt ≤ a.createdAt)))

/-- Model of the truthiness test `data.cycleId ? ... : undefined`: the
cycle `connect` target, present only when the optional cycle id is a
non-empty string. -/
def truthyCycleId (cycleId : Option String) : Option String :=
  match cycleId with
  | some c => if c.isEmpty then none else some c
  | none => none

/-- Is an optional cycle `connect` target missing from the store? -/
def cycleMissing (s : Store) (cycleConnect : Option String) : Bool :=
  match cycleConnect with
  | some c => (s.cycles.find? (fun t => t.id == c)).isNone
  | none => false

instance : IsTotal Patient patOrder := by
  constructor
  intro a b
  rcases lt_trichotomy a.updatedAt b.updatedAt with h | h | h
  · exact Or.inr (Or.inl h)
  · rcases le_total b.createdAt a.createdAt with hc | hc
    · exact Or.inl (Or.inr ⟨h, hc⟩)
    · exact Or.inr (Or.inr ⟨h.symm, hc⟩)
  · exact Or.inl (Or.inl h)

instance : IsTrans Patient patOrder := by
  constructor
  intro a b c hab hbc
  rcases hab with hab | ⟨hab₁, hab₂⟩ <;> rcases hbc with hbc | ⟨hbc₁, hbc₂⟩
  · exact Or.inl (lt_trans hbc hab)
  · exact Or.inl (hbc₁ ▸ hab)
  · exact Or.inl (hab₁ ▸ hbc)
  · exact Or.inr ⟨hab₁.trans hbc₁, le_trans hbc₂ hab₂⟩

/-! ## `fertilityDB` wrappers (`src/unnamed/part_001`)

Each wrapper takes the store as an explicit argument and returns the
resulting store (unchanged whenever the wrapped prisma call rejects or
only reads). Fresh row ids and `CURRENT_TIMESTAMP` values, produced by
the database in the source, are passed in as arguments. -/

namespace fertilityDB

open FertiClaude

/-- Argument object of `fertilityDB.createPatient`. -/
structure CreatePatientData where
  firstName : String
  lastName : String
  mrn : String
  dateOfBirth : Int
  phone : Option String
  email : Option String
  clinicId : String
deriving Repr, DecidableEq

/-- Model of `fertilityDB.createPatient`: `prisma.patient.create({ data })`.
Rejects when the unique index on `mrn` is violated. -/
def createPatient (d : CreatePatientData) (newId : String) (now : Int)
    (s : Store) : Except String Patient × Store :=
  if s.patients.any (fun p => p.mrn == d.mrn) then
    (.error "Unique constraint failed on the fields: (mrn)", s)
  else
    let row : Patient :=
      { id := newId, clinicId := d.clinicId, mrn := d.mrn,
        firstName := d.firstName, lastName := d.lastName,
        dateOfBirth := d.dateOfBirth, phone := d.phone, email := d.email,
        createdAt := now, updatedAt := now }
    (.ok row, { s with patients := s.patients ++ [row] })

/-- Model of `fertilityDB.getPatient`: `prisma.patient.findUnique` with includes;
a pure read. -/
def getPatient (id : String) (s : Store) : Option Patient × Store :=
  (findUniquePatient s id, s)

/-- Argument object of `fertilityDB.logAIInteraction`. -/
structure LogAIData where
  input : String
  output : String
  model : String
  confidence : Option Rat
  patientId : String
  cycleId : Option String
  context : Option (List (String × String))
deriving Repr, DecidableEq

/-- Model of `fertilityDB.logAIInteraction`: builds the `inputData` payload and
calls `prisma.aIPrediction.create` with `predictionType: 'CONSULTATION'`,
`confidenceScore: data.confidence || 0.85` (so a zero confidence also
falls back to the default, `||` being falsy-based), and relation
`connect`s for the patient and — only when `data.cycleId` is truthy,
i.e. present and nonempty — the cycle. A `connect` to a missing row
rejects (foreign keys `ai_predictions_patient_id_fkey` /
`ai_predictions_cycle_id_fkey`). -/
def logAIInteraction (d : LogAIData) (newId : String) (now : Int)
    (s : Store) : Except String AIPrediction × Store :=
  let payload : InputPayload := { input := d.input, context := d.context }
  let cycleConnect : Option String := truthyCycleId d.cycleId
  if (findUniquePatient s d.patientId).isNone then
    (.error "Foreign key constraint failed: ai_predictions_patient_id_fkey", s)
  else if cycleMissing s cycleConnect then
    (.error "Foreign key constraint failed: ai_predictions_cycle_id_fkey", s)
  else
    let row : AIPrediction :=
      { id := newId, patientId := d.patientId, cycleId := cycleConnect,
        predictionType := "CONSULTATION",
        inputData := payload,
        predictionResult := { output := d.output, model := d.model },
        confidenceScore :=
          match d.confidence with
          | some c => if c = 0 then (85 : Rat) / 100 else c
          | none => (85 : Rat) / 100,
        modelVersion := d.model, createdAt := now }
    (.ok row, { s with predictions := s.predictions ++ [row] })

/-- Argument object of `fertilityDB.createLabResult`. -/
structure CreateLabResultData where
  patientId : String
  cycleId : Option String
  testType : String
  values : String
  testDate : Int
  referenceRange : Option String
deriving Repr, DecidableEq

/-- Model of `fertilityDB.createLabResult`: `prisma.labResult.create` with a
patient `connect` and — when `data.cycleId` is truthy — a cycle
`connect`. -/
def createLabResult (d : CreateLabResultData) (newId : String) (now : Int)
    (s : Store) : Except String LabResult × Store :=
  let cycleConnect : Option String := truthyCycleId d.cycleId
  if (findUniquePatient s d.patientId).isNone then
    (.error "Foreign key constraint failed: lab_results_patient_id_fkey", s)
  else if cycleMissing s cycleConnect then
    (.error "Foreign key constraint failed: lab_results_cycle_id_fkey", s)
  else
    let row : LabResult :=
      { id := newId, patientId := d.patientId, cycleId := cycleConnect,
        testType := d.testType, values := d.values,
        referenceRange := d.referenceRange, testDate := d.testDate,
        createdAt := now }
    (.ok row, { s with labResults := s.labResults ++ [row] })

/-- Argument object of `fertilityDB.createTreatmentCycle`. -/
structure CreateCycleData where
  patientId : String
  cycleNumber : Int
  protocolType : Option String
  startDate : Option Int
  status : Option CycleStatus
deriving Repr, DecidableEq

/-- Model of `fertilityDB.createTreatmentCycle`: `prisma.treatmentCycle.create`
with `status: data.status || 'PLANNING'` and a patient `connect`. -/
def createTreatmentCycle (d : CreateCycleData) (newId : String) (now : Int)
    (s : Store) : Except String TreatmentCycle × Store :=
  if (findUniquePatient s d.patientId).isNone then
    (.error "Foreign key constraint failed: treatment_cycles_patient_id_fkey", s)
  else
    let row : TreatmentCycle :=
      { id := newId, patientId := d.patientId, cycleNumber := d.cycleNumber,
        protocolType := d.protocolType, startDate := d.startDate,
        status := d.status.getD CycleStatus.PLANNING, createdAt := now }
    (.ok row, { s with cycles := s.cycles ++ [row] })

/-- Result object of `fertilityDB.getClinicStats`. -/
structure ClinicStats where
  patientsCount : Nat
  cyclesCount : Nat
  aiInteractionsCount : Nat
deriving Repr, DecidableEq

/-- Model of `fertilityDB.getClinicStats`: three independent `count` queries;
a pure read. -/
def getClinicStats (clinicId : String) (s : Store) : ClinicStats × Store :=
  let byClinic := fun pid =>
    (findUniquePatient s pid).any (fun p => p.clinicId == clinicId)
  (⟨(s.patients.filter (fun p => p.clinicId == clinicId)).length,
    (s.cycles.filter (fun c => byClinic c.patientId)).length,
    (s.predictions.filter (fun r => byClinic r.patientId)).length⟩, s)

/-- The `OR` filter of `fertilityDB.searchPatients`: case-insensitive
substring match on first name, last name, email or MRN (a `NULL` email
matches nothing). -/
def searchMatches (query : String) (p : Patient) : Bool :=
  lowerContains p.firstName query || lowerContains p.lastName query ||
  (match p.email with
   | some e => lowerContains e query
   | none => false) ||
  lowerContains p.mrn query

/-- Model of `fertilityDB.searchPatients`: filter by optional clinic and the
`OR` contains-filter, `orderBy: { createdAt: 'desc' }`; a pure read. -/
def searchPatients (query : String) (clinicId : Option String)
    (s : Store) : List Patient × Store :=
  let keep := fun p =>
    (match clinicId with
     | some cid => p.clinicId == cid
     | none => true) && searchMatches query p
  (List.insertionSort (fun a b : Patient => b.createdAt ≤ a.createdAt)
    (s.patients.filter keep), s)

end fertilityDB

/-! ## Consultation orchestrator and history reader
(`src/src/app/api/ai/process/route.ts`) -/

namespace AiProcessRoute

/-- The constant `MODEL_NAME = 'llama-3.3-70b-versatile'`. -/
def MODEL_NAME : String := "llama-3.3-70b-versatile"

/-- The canned fallback text built in the `catch` block of `POST`. -/
def fallbackText : String :=
  "I apologize, but I\x27m currently experiencing technical difficulties processing your fertility consultation.\n\nPlease try again in a moment, or consider the following general guidance:\n\n**For fertility consultations, please ensure you include:**\n- Patient age\n- Relevant hormone levels (AMH, FSH, LH, E2 if available)\n- Medical history relevant to fertility\n- Current symptoms or concerns\n- Any prior fertility treatments\n\n**For immediate clinical concerns:**\n- Contact your healthcare provider directly\n- This AI assistant provides decision support only\n- Always consult with qualified medical professionals\n\nThe system should be back online shortly. Thank you for your patience."

/-- A parsed `POST` request body. `message`/`patientId`/`cycleId` are
`some s` exactly when the JSON field is present and a string (the
source reads them through `typeof x === 'string'`); `context` is `some`
exactly when the field is present, truthy and an object. -/
structure PostReq where
  message : Option String
  patientId : Option String
  cycleId : Option String
  context : Option (List (String × String))
deriving Repr, DecidableEq

/-- Injected collaborator failures for one `POST` request:
`request.json()` rejecting, `prisma.patient.findUnique` rejecting,
`fertilityAI.processPatientInput` rejecting, and
`fertilityDB.logAIInteraction` rejecting for a reason other than the
modelled foreign-key checks. -/
structure PostFaults where
  jsonFault : Bool
  findFault : Bool
  inferFault : Bool
  logFault : Bool
deriving Repr, DecidableEq

/-- Body of a `POST` response. -/
inductive PostBody where
  | clientError (error : String)
  | success (response : String) (timestamp : Int) (model : String)
      (patientId : String) (cycleId : Option String) (predictionId : Option String)
  | fallback (response : String) (timestamp : Int) (error : String)
deriving Repr, DecidableEq

/-- A `POST` response: HTTP status and JSON body. -/
structure PostResp where
  status : Nat
  body : PostBody
deriving Repr, DecidableEq

/-- Model of `const message = typeof body.message === 'string' ? body.message.trim() : ''`. -/
def postMessage (req : PostReq) : String := (req.message.map jsTrim).getD ""

/-- Model of `const patientId = typeof body.patientId === 'string' ? body.patientId.trim() : ''`. -/
def postPatientId (req : PostReq) : String := (req.patientId.map jsTrim).getD ""

/-- Model of `const cycleId = typeof body.cycleId === 'string' ? body.cycleId.trim() : undefined`. -/
def postCycleId (req : PostReq) : Option String := req.cycleId.map jsTrim

/-- The fallback response produced by the outer `catch` of `POST`:
status 200, the canned text, and `error: 'AI service temporarily
unavailable'` with `fallback: true` (the `fallback` constructor). -/
def fallbackResp (now : Int) : PostResp :=
  { status := 200,
    body := .fallback fallbackText now "AI service temporarily unavailable" }

/-- The `POST` handler of `/api/ai/process` (the consultation
orchestrator). `inferOut` is the text the inference collaborator would
return on success, `newId` the id the store would assign to a new audit
row, `now` the request timestamp. -/
def POST (req : PostReq) (f : PostFaults) (inferOut newId : String)
    (now : Int) (s : Store) : PostResp × Store × Trace :=
  if f.jsonFault then
    (fallbackResp now, s, Trace.zero)
  else if (postMessage req).isEmpty then
    ({ status := 400, body := .clientError "Message is required" }, s, Trace.zero)
  else if (postPatientId req).isEmpty then
    ({ status := 400, body := .clientError "patientId is required" }, s, Trace.zero)
  else if f.findFault then
    (fallbackResp now, s, ⟨0, 1, 0, 0⟩)
  else if (findUniquePatient s (postPatientId req)).isNone then
    ({ status := 404, body := .clientError "Patient not found" }, s, ⟨0, 1, 0, 0⟩)
  else if f.inferFault then
    (fallbackResp now, s, ⟨1, 1, 0, 0⟩)
  else if f.logFault then
    ({ status := 200,
       body := .success inferOut now MODEL_NAME (postPatientId req)
         (postCycleId req) none }, s, ⟨1, 1, 0, 0⟩)
  else
    match fertilityDB.logAIInteraction
        { input := postMessage req, output := inferOut, model := MODEL_NAME,
          confidence := none, patientId := postPatientId req,
          cycleId := postCycleId req, context := req.context } newId now s with
    | (.ok record, s2) =>
        ({ status := 200,
           body := .success inferOut now MODEL_NAME (postPatientId req)
             (postCycleId req) (some record.id) }, s2, ⟨1, 1, 0, 1⟩)
    | (.error _, s2) =>
        ({ status := 200,
           body := .success inferOut now MODEL_NAME (postPatientId req)
             (postCycleId req) none }, s2, ⟨1, 1, 0, 0⟩)

/-- Query parameters of the history `GET`; `some ""` models a present
but empty parameter (`?patientId=`). -/
structure HistoryParams where
  patientId : Option String
  limit : Option String
deriving Repr, DecidableEq

/-- Injected store failures for one history `GET` request. -/
structure HistoryFaults where
  findUniqueFault : Bool
  findManyFault : Bool
deriving Repr, DecidableEq

/-- Model of `const limit = takeParam ? Math.min(parseInt(takeParam, 10) || 10, 50) : 10`:
10 when the parameter is absent or empty (falsy), otherwise the parsed
value — with `NaN` and `0`, both falsy, replaced by 10 — capped at 50. -/
def historyLimit (takeParam : Option String) : Int :=
  match takeParam with
  | none => 10
  | some sp =>
      if sp.isEmpty then 10
      else
        min (match parseIntJS sp with
             | some n => if n = 0 then 10 else n
             | none => 10) 50

/-- The row shape of the history `select`: every `ai_predictions`
column except `patient_id`. -/
structure PredRow where
  id : String
  createdAt : Int
  predictionType : String
  predictionResult : PredictionResult
  inputData : InputPayload
  modelVersion : String
  confidenceScore : Rat
  cycleId : Option String
deriving Repr, DecidableEq

/-- Projection of an audit row onto the history `select`. -/
def toPredRow (r : AIPrediction) : PredRow :=
  ⟨r.id, r.createdAt, r.predictionType, r.predictionResult, r.inputData,
   r.modelVersion, r.confidenceScore, r.cycleId⟩

/-- Model of `prisma.aIPrediction.findMany({ where: { patientId }, orderBy:
{ createdAt: 'desc' } })` before `take` is applied: the patient's audit
rows, newest first. -/
def historyRowsFor (s : Store) (pid : String) : List AIPrediction :=
  List.insertionSort predOrder (s.predictions.filter (fun r => r.patientId == pid))

/-- Body of a history `GET` response. -/
inductive HistoryBody where
  | metadata (message version model status : String)
  | history (patientId : String) (limit : Int) (rows : List PredRow)
  | err (error : String)
deriving Repr, DecidableEq

/-- A history `GET` response. -/
structure HistoryResp where
  status : Nat
  body : HistoryBody
deriving Repr, DecidableEq

/-- The rows of a history `GET` response (empty for the other bodies). -/
def historyRowsOf (r : HistoryResp) : List PredRow :=
  match r.body with
  | .history _ _ rows => rows
  | _ => []

/-- The `GET` handler of `/api/ai/process` (the history reader). With no
(or an empty, falsy) `patientId` parameter it returns service metadata
without touching the store; otherwise it checks the patient and returns
the audit rows, newest first, with the clamped `take`. -/
def GET (p : HistoryParams) (f : HistoryFaults) (s : Store) :
    HistoryResp × Store × Trace :=
  let limit := historyLimit p.limit
  if (p.patientId.getD "").isEmpty then
    ({ status := 200,
       body := .metadata "FertiClaude AI Process API is running" "2.0.0"
         MODEL_NAME "operational" }, s, Trace.zero)
  else if f.findUniqueFault then
    ({ status := 500, body := .err "Failed to load AI history" }, s, ⟨0, 1, 0, 0⟩)
  else if (findUniquePatient s (p.patientId.getD "")).isNone then
    ({ status := 404, body := .err "Patient not found" }, s, ⟨0, 1, 0, 0⟩)
  else if f.findManyFault then
    ({ status := 500, body := .err "Failed to load AI history" }, s, ⟨0, 1, 1, 0⟩)
  else
    ({ status := 200,
       body := .history (p.patientId.getD "") limit
         ((prismaTake limit (historyRowsFor s (p.patientId.getD ""))).map toPredRow) },
      s, ⟨0, 1, 1, 0⟩)

end AiProcessRoute

/-! ## Patient directory (`GET /api/patients`, the second document in
`src/src/app/api/ai/process/route.ts`) -/

namespace PatientsRoute

/-- Query parameters of the patients `GET`. -/
structure PatientsParams where
  search : Option String
  limit : Option String
deriving Repr, DecidableEq

/-- Injected store failure for one patients `GET` request. -/
structure PatientsFaults where
  findManyFault : Bool
deriving Repr, DecidableEq

/-- Model of the limit computation: `parsedLimit = limitParam ?
Number.parseInt(limitParam, 10) : NaN`; `take = Number.isNaN(parsedLimit)
? DEFAULT_LIMIT : Math.min(Math.max(parsedLimit, 1), MAX_LIMIT)` with
`DEFAULT_LIMIT = 20`, `MAX_LIMIT = 50`. An absent or empty (falsy)
parameter and a `NaN` parse both yield the default. -/
def patientsTake (limitParam : Option String) : Int :=
  match limitParam with
  | none => 20
  | some sp =>
      if sp.isEmpty then 20
      else
        match parseIntJS sp with
        | some n => min (max n 1) 50
        | none => 20

/-- Model of the `filters` value: `undefined` when the trimmed search is
empty (falsy), otherwise the `OR` contains-filter carrying the search
term. -/
def patientsWhere (search : String) : Option String :=
  if search.isEmpty then none else some search

/-- The `OR` filter of the patients route: case-insensitive substring
match of the search term against first name, last name, email or MRN
(a `NULL` email matches nothing). -/
def matchesSearch (q : String) (p : Patient) : Bool :=
  lowerContains p.firstName q || lowerContains p.lastName q ||
  (match p.email with
   | some e => lowerContains e q
   | none => false) ||
  lowerContains p.mrn q

/-- Model of `prisma.patient.findMany({ where: filters, orderBy:
[{ updatedAt: 'desc' }, { createdAt: 'desc' }] })` before `take` is
applied. -/
def patientsSorted (s : Store) (flt : Option String) : List Patient :=
  List.insertionSort patOrder
    (match flt with
     | none => s.patients
     | some q => s.patients.filter (matchesSearch q))

/-- The row shape of the patients `select`:
`id, firstName, lastName, mrn, dateOfBirth`. -/
structure PatientRow where
  id : String
  firstName : String
  lastName : String
  mrn : String
  dateOfBirth : Int
deriving Repr, DecidableEq

/-- Projection of a patient onto the patients `select`. -/
def toPatientRow (p : Patient) : PatientRow :=
  ⟨p.id, p.firstName, p.lastName, p.mrn, p.dateOfBirth⟩

/-- Body of a patients `GET` response: `{ data, count, hasMore }` on
success, `{ error }` on a store failure. -/
inductive PatientsBody where
  | ok (data : List PatientRow) (count : Nat) (hasMore : Bool)
  | err (error : String)
deriving Repr, DecidableEq

/-- A patients `GET` response. -/
structure PatientsResp where
  status : Nat
  body : PatientsBody
deriving Repr, DecidableEq

/-- The `data` rows of a patients response (empty on error). -/
def dataOf (r : PatientsResp) : List PatientRow :=
  match r.body with
  | .ok d _ _ => d
  | .err _ => []

/-- The `count` field of a patients response (zero on error). -/
def countOf (r : PatientsResp) : Nat :=
  match r.body with
  | .ok _ c _ => c
  | .err _ => 0

/-- The `hasMore` field of a patients response (false on error). -/
def hasMoreOf (r : PatientsResp) : Bool :=
  match r.body with
  | .ok _ _ h => h
  | .err _ => false

/-- The `data` rows the `GET` handler of `/api/patients` computes:
the trimmed search drives the optional `OR` filter, the query is
ordered by `updatedAt` then `createdAt` descending, and the clamped
limit is applied as `take`. -/
def resultRows (p : PatientsParams) (s : Store) : List PatientRow :=
  (prismaTake (patientsTake p.limit)
    (patientsSorted s (patientsWhere (jsTrim (p.search.getD ""))))).map toPatientRow

/-- The `GET` handler of `/api/patients` (the patient directory):
responds with `{ data, count: data.length, hasMore: data.length ===
take }`; a store failure yields a 500 with a generic message. -/
def GET (p : PatientsParams) (f : PatientsFaults) (s : Store) :
    PatientsResp × Store :=
  if f.findManyFault then
    ({ status := 500,
       body := .err "Unable to retrieve patients. Please try again later." }, s)
  else
    ({ status := 200,
       body := .ok (resultRows p s) (resultRows p s).length
         (decide (((resultRows p s).length : Int) = patientsTake p.limit)) }, s)

end PatientsRoute

/-! ## Fixtures for the concrete witnesses -/

/-- A sample patient. -/
def demoPatient : Patient :=
  { id := "p1", clinicId := "c1", mrn := "MRN-1", firstName := "Ada",
    lastName := "Lovelace", dateOfBirth := 0, phone := none,
    email := some "ada@example.com", createdAt := 0, updatedAt := 0 }

/-- A store holding exactly the sample patient and no audit rows. -/
def demoStore : Store :=
  { patients := [demoPatient], cycles := [], labResults := [], predictions := [] }

/-- A sample consultation request for the sample patient. -/
def demoReq : AiProcessRoute.PostReq :=
  { message := some " hi ", patientId := some "p1", cycleId := none, context := none }

/-- A sample audit row of the sample patient. -/
def demoPrediction : AIPrediction :=
  { id := "r1", patientId := "p1", cycleId := none,
    predictionType := "CONSULTATION", inputData := ⟨"q", none⟩,
    predictionResult := ⟨"a", AiProcessRoute.MODEL_NAME⟩,
    confidenceScore := (85 : Rat) / 100,
    modelVersion := AiProcessRoute.MODEL_NAME, createdAt := 5 }

/-- A store holding the sample patient and one audit row. -/
def histStore : Store :=
  { patients := [demoPatient], cycles := [], labResults := [],
    predictions := [demoPrediction] }

/-! ## Claims -/

set_option maxRecDepth 8192 in
/-- C1: for every consultation `POST` with a non-empty trimmed message
and an existing (non-empty) `patientId`, if the inference collaborator
throws, the handler returns HTTP 200 with the `fallback: true` body
carrying an error string and the non-empty canned fallback text, and it
performs no audit-row insert: the store is returned unchanged. -/
theorem C1_inference_failure_fallback_no_insert
    (req : AiProcessRoute.PostReq) (f : AiProcessRoute.PostFaults)
    (inferOut newId : String) (now : Int) (s : Store)
    (hjson : f.jsonFault = false) (hfind : f.findFault = false)
    (hinfer : f.inferFault = true)
    (hmsg : (AiProcessRoute.postMessage req).isEmpty = false)
    (hpid : (AiProcessRoute.postPatientId req).isEmpty = false)
    (hex : patientExists s (AiProcessRoute.postPatientId req) = true) :
    (AiProcessRoute.POST req f inferOut newId now s).1.status = 200 ∧
    (AiProcessRoute.POST req f inferOut newId now s).1.body =
      AiProcessRoute.PostBody.fallback AiProcessRoute.fallbackText now
        "AI service temporarily unavailable" ∧
    AiProcessRoute.fallbackText.isEmpty = false ∧
    (AiProcessRoute.POST req f inferOut newId now s).2.1 = s ∧
    (AiProcessRoute.POST req f inferOut newId now s).2.2.auditInserts = 0 := by
  have hpe : (findUniquePatient s (AiProcessRoute.postPatientId req)).isSome = true := hex
  obtain ⟨pt, hpt⟩ := Option.isSome_iff_exists.mp hpe
  refine ⟨?_, ?_, by decide, ?_, ?_⟩ <;>
    simp [AiProcessRoute.POST, AiProcessRoute.fallbackResp, hjson, hfind, hinfer,
      hmsg, hpid, hpt]

set_option maxRecDepth 8192 in
/-- C1 witness: the concrete sample request against the sample store
with a failing inference collaborator. -/
theorem C1_witness :
    (AiProcessRoute.POST demoReq ⟨false, false, true, false⟩ "out" "r1" 7 demoStore).1.status = 200 ∧
    (AiProcessRoute.POST demoReq ⟨false, false, true, false⟩ "out" "r1" 7 demoStore).1.body =
      AiProcessRoute.PostBody.fallback AiProcessRoute.fallbackText 7
        "AI service temporarily unavailable" ∧
    AiProcessRoute.fallbackText.isEmpty = false ∧
    (AiProcessRoute.POST demoReq ⟨false, false, true, false⟩ "out" "r1" 7 demoStore).2.1 = demoStore ∧
    (AiProcessRoute.POST demoReq ⟨false, false, true, false⟩ "out" "r1" 7 demoStore).2.2.auditInserts = 0 :=
  C1_inference_failure_fallback_no_insert demoReq ⟨false, false, true, false⟩
    "out" "r1" 7 demoStore rfl rfl rfl (by decide) (by decide) (by decide)

/-- C2: for every consultation `POST` where the inference call succeeds
but the audit-persistence step throws, the handler still returns HTTP
200 with a success body carrying the AI output text and
`predictionId: null` (and no error field — the persistence error is
swallowed), leaving the store unchanged. -/
theorem C2_audit_write_failure_swallowed
    (req : AiProcessRoute.PostReq) (f : AiProcessRoute.PostFaults)
    (inferOut newId : String) (now : Int) (s : Store)
    (hjson : f.jsonFault = false) (hfind : f.findFault = false)
    (hinfer : f.inferFault = false) (hlog : f.logFault = true)
    (hmsg : (AiProcessRoute.postMessage req).isEmpty = false)
    (hpid : (AiProcessRoute.postPatientId req).isEmpty = false)
    (hex : patientExists s (AiProcessRoute.postPatientId req) = true) :
    (AiProcessRoute.POST req f inferOut newId now s).1.status = 200 ∧
    (AiProcessRoute.POST req f inferOut newId now s).1.body =
      AiProcessRoute.PostBody.success inferOut now AiProcessRoute.MODEL_NAME
        (AiProcessRoute.postPatientId req) (AiProcessRoute.postCycleId req) none ∧
    (AiProcessRoute.POST req f inferOut newId now s).2.1 = s ∧
    (AiProcessRoute.POST req f inferOut newId now s).2.2.auditInserts = 0 := by
  have hpe : (findUniquePatient s (AiProcessRoute.postPatientId req)).isSome = true := hex
  obtain ⟨pt, hpt⟩ := Option.isSome_iff_exists.mp hpe
  refine ⟨?_, ?_, ?_, ?_⟩ <;>
    simp [AiProcessRoute.POST, hjson, hfind, hinfer, hlog, hmsg, hpid, hpt]

/-- C2 witness: the concrete sample request with a rejecting audit
write. -/
theorem C2_witness :
    (AiProcessRoute.POST demoReq ⟨false, false, false, true⟩ "out" "r1" 7 demoStore).1.status = 200 ∧
    (AiProcessRoute.POST demoReq ⟨false, false, false, true⟩ "out" "r1" 7 demoStore).1.body =
      AiProcessRoute.PostBody.success "out" 7 AiProcessRoute.MODEL_NAME
        (AiProcessRoute.postPatientId demoReq) (AiProcessRoute.postCycleId demoReq) none ∧
    (AiProcessRoute.POST demoReq ⟨false, false, false, true⟩ "out" "r1" 7 demoStore).2.1 = demoStore ∧
    (AiProcessRoute.POST demoReq ⟨false, false, false, true⟩ "out" "r1" 7 demoStore).2.2.auditInserts = 0 :=
  C2_audit_write_failure_swallowed demoReq ⟨false, false, false, true⟩
    "out" "r1" 7 demoStore rfl rfl rfl rfl (by decide) (by decide) (by decide)

/-- C3: for every consultation `POST` whose body parses as JSON, an
empty-after-trimming (or non-string) `message` yields a 400 whose error
mentions "message" (case-insensitively), and otherwise an
empty-after-trimming (or non-string) `patientId` yields a 400 whose
error mentions "patientId"; in both cases the handler performs no
inference call and no store access (the trace is zero and the store is
unchanged). -/
theorem C3_validation_400
    (req : AiProcessRoute.PostReq) (f : AiProcessRoute.PostFaults)
    (inferOut newId : String) (now : Int) (s : Store)
    (hjson : f.jsonFault = false) :
    ((AiProcessRoute.postMessage req).isEmpty = true →
      (AiProcessRoute.POST req f inferOut newId now s).1.status = 400 ∧
      (AiProcessRoute.POST req f inferOut newId now s).1.body =
        AiProcessRoute.PostBody.clientError "Message is required" ∧
      lowerContains "Message is required" "message" = true ∧
      (AiProcessRoute.POST req f inferOut newId now s).2.1 = s ∧
      (AiProcessRoute.POST req f inferOut newId now s).2.2 = Trace.zero) ∧
    ((AiProcessRoute.postMessage req).isEmpty = false →
      (AiProcessRoute.postPatientId req).isEmpty = true →
      (AiProcessRoute.POST req f inferOut newId now s).1.status = 400 ∧
      (AiProcessRoute.POST req f inferOut newId now s).1.body =
        AiProcessRoute.PostBody.clientError "patientId is required" ∧
      lowerContains "patientId is required" "patientId" = true ∧
      (AiProcessRoute.POST req f inferOut newId now s).2.1 = s ∧
      (AiProcessRoute.POST req f inferOut newId now s).2.2 = Trace.zero) := by
  constructor
  · intro hm
    refine ⟨?_, ?_, by decide, ?_, ?_⟩ <;> simp [AiProcessRoute.POST, hjson, hm]
  · intro hm hp
    refine ⟨?_, ?_, by decide, ?_, ?_⟩ <;> simp [AiProcessRoute.POST, hjson, hm, hp]

/-- C3 witness: a request with a blank message, and one with a message
but a blank patientId. -/
theorem C3_witness :
    ((AiProcessRoute.POST ⟨some "  ", some "p1", none, none⟩ ⟨false, false, false, false⟩
        "out" "r1" 7 demoStore).1.status = 400 ∧
     (AiProcessRoute.POST ⟨some "  ", some "p1", none, none⟩ ⟨false, false, false, false⟩
        "out" "r1" 7 demoStore).1.body =
       AiProcessRoute.PostBody.clientError "Message is required" ∧
     lowerContains "Message is required" "message" = true ∧
     (AiProcessRoute.POST ⟨some "  ", some "p1", none, none⟩ ⟨false, false, false, false⟩
        "out" "r1" 7 demoStore).2.1 = demoStore ∧
     (AiProcessRoute.POST ⟨some "  ", some "p1", none, none⟩ ⟨false, false, false, false⟩
        "out" "r1" 7 demoStore).2.2 = Trace.zero) ∧
    ((AiProcessRoute.POST ⟨some "hi", none, none, none⟩ ⟨false, false, false, false⟩
        "out" "r1" 7 demoStore).1.status = 400 ∧
     (AiProcessRoute.POST ⟨some "hi", none, none, none⟩ ⟨false, false, false, false⟩
        "out" "r1" 7 demoStore).1.body =
       AiProcessRoute.PostBody.clientError "patientId is required" ∧
     lowerContains "patientId is required" "patientId" = true ∧
     (AiProcessRoute.POST ⟨some "hi", none, none, none⟩ ⟨false, false, false, false⟩
        "out" "r1" 7 demoStore).2.1 = demoStore ∧
     (AiProcessRoute.POST ⟨some "hi", none, none, none⟩ ⟨false, false, false, false⟩
        "out" "r1" 7 demoStore).2.2 = Trace.zero) :=
  ⟨(C3_validation_400 ⟨some "  ", some "p1", none, none⟩ ⟨false, false, false, false⟩
      "out" "r1" 7 demoStore rfl).1 (by decide),
   (C3_validation_400 ⟨some "hi", none, none, none⟩ ⟨false, false, false, false⟩
      "out" "r1" 7 demoStore rfl).2 (by decide) (by decide)⟩

/-- C4: for every request with a non-empty `patientId` matching no
patient in the store (and, on the write path, a non-empty message and
no injected faults), the consultation `POST` and the history `GET` both
return 404 with a "Patient not found" error, call the inference
collaborator zero times, read zero audit rows, insert zero audit rows,
and leave the store unchanged. -/
theorem C4_unknown_patient_404
    (req : AiProcessRoute.PostReq) (f : AiProcessRoute.PostFaults)
    (inferOut newId : String) (now : Int) (s : Store) (p : AiProcessRoute.HistoryParams)
    (hjson : f.jsonFault = false) (hfind : f.findFault = false)
    (hmsg : (AiProcessRoute.postMessage req).isEmpty = false)
    (hpid : (AiProcessRoute.postPatientId req).isEmpty = false)
    (hnp : patientExists s (AiProcessRoute.postPatientId req) = false)
    (hq : p.patientId = some (AiProcessRoute.postPatientId req)) :
    (AiProcessRoute.POST req f inferOut newId now s).1.status = 404 ∧
    (AiProcessRoute.POST req f inferOut newId now s).1.body =
      AiProcessRoute.PostBody.clientError "Patient not found" ∧
    (AiProcessRoute.POST req f inferOut newId now s).2.2.inferCalls = 0 ∧
    (AiProcessRoute.POST req f inferOut newId now s).2.2.auditReads = 0 ∧
    (AiProcessRoute.POST req f inferOut newId now s).2.2.auditInserts = 0 ∧
    (AiProcessRoute.POST req f inferOut newId now s).2.1 = s ∧
    (AiProcessRoute.GET p ⟨false, false⟩ s).1.status = 404 ∧
    (AiProcessRoute.GET p ⟨false, false⟩ s).1.body =
      AiProcessRoute.HistoryBody.err "Patient not found" ∧
    (AiProcessRoute.GET p ⟨false, false⟩ s).2.2.inferCalls = 0 ∧
    (AiProcessRoute.GET p ⟨false, false⟩ s).2.2.auditReads = 0 ∧
    (AiProcessRoute.GET p ⟨false, false⟩ s).2.2.auditInserts = 0 ∧
    (AiProcessRoute.GET p ⟨false, false⟩ s).2.1 = s := by
  have hnone : findUniquePatient s (AiProcessRoute.postPatientId req) = none := by
    have := hnp
    unfold patientExists at this
    exact Option.not_isSome_iff_eq_none.mp (by simp [this])
  refine ⟨?_, ?_, ?_, ?_, ?_, ?_, ?_, ?_, ?_, ?_, ?_, ?_⟩ <;>
    simp [AiProcessRoute.POST, AiProcessRoute.GET, hjson, hfind, hmsg, hpid,
      hnone, hq]

/-- C4 witness: an unknown patient id on both paths against the sample
store. -/
theorem C4_witness :
    (AiProcessRoute.POST ⟨some "hi", some "ghost", none, none⟩
        ⟨false, false, false, false⟩ "out" "r1" 7 demoStore).1.status = 404 ∧
    (AiProcessRoute.POST ⟨some "hi", some "ghost", none, none⟩
        ⟨false, false, false, false⟩ "out" "r1" 7 demoStore).1.body =
      AiProcessRoute.PostBody.clientError "Patient not found" ∧
    (AiProcessRoute.GET ⟨some "ghost", none⟩ ⟨false, false⟩ demoStore).1.status = 404 ∧
    (AiProcessRoute.GET ⟨some "ghost", none⟩ ⟨false, false⟩ demoStore).1.body =
      AiProcessRoute.HistoryBody.err "Patient not found" ∧
    (AiProcessRoute.GET ⟨some "ghost", none⟩ ⟨false, false⟩ demoStore).2.2.auditReads = 0 :=
  have h := C4_unknown_patient_404 ⟨some "hi", some "ghost", none, none⟩
    ⟨false, false, false, false⟩ "out" "r1" 7 demoStore ⟨some "ghost", none⟩
    rfl rfl (by decide) (by decide) (by decide) (by decide)
  ⟨h.1, h.2.1, h.2.2.2.2.2.2.1, h.2.2.2.2.2.2.2.1, h.2.2.2.2.2.2.2.2.2.1⟩

/-- Auxiliary: `fertilityDB.logAIInteraction` only ever appends to the
audit table. -/
theorem logAIInteraction_predictions_append
    (d : fertilityDB.LogAIData) (newId : String) (now : Int) (s : Store) :
    ∃ added, ((fertilityDB.logAIInteraction d newId now s).2).predictions =
      s.predictions ++ added := by
  simp only [fertilityDB.logAIInteraction]
  by_cases h1 : (findUniquePatient s d.patientId).isNone = true
  · exact ⟨[], by simp [h1]⟩
  by_cases h2 : cycleMissing s (truthyCycleId d.cycleId) = true
  · exact ⟨[], by simp [h1, h2]⟩
  · exact ⟨_, by rw [if_neg h1, if_neg h2]⟩

/-- C5: audit records are immutable once created. Every operation of
the consultation orchestrator (`POST`), the history reader, the patient
directory and the `fertilityDB` wrappers returns a store whose audit
table is the input audit table with zero or more new rows appended —
existing `AIPrediction` rows are never updated or deleted, and the
readers do not mutate the store at all. -/
theorem C5_audit_rows_append_only :
    (∀ d newId now s,
      ((fertilityDB.createPatient d newId now s).2).predictions = s.predictions) ∧
    (∀ id s, (fertilityDB.getPatient id s).2 = s) ∧
    (∀ d newId now s, ∃ added,
      ((fertilityDB.logAIInteraction d newId now s).2).predictions =
        s.predictions ++ added) ∧
    (∀ d newId now s,
      ((fertilityDB.createLabResult d newId now s).2).predictions = s.predictions) ∧
    (∀ d newId now s,
      ((fertilityDB.createTreatmentCycle d newId now s).2).predictions = s.predictions) ∧
    (∀ cid s, (fertilityDB.getClinicStats cid s).2 = s) ∧
    (∀ q cid s, (fertilityDB.searchPatients q cid s).2 = s) ∧
    (∀ req f inferOut newId now s, ∃ added,
      ((AiProcessRoute.POST req f inferOut newId now s).2.1).predictions =
        s.predictions ++ added) ∧
    (∀ p f s, (AiProcessRoute.GET p f s).2.1 = s) ∧
    (∀ p f s, (PatientsRoute.GET p f s).2 = s) := by
  refine ⟨?_, fun _ _ => rfl, logAIInteraction_predictions_append, ?_, ?_,
    fun _ _ => rfl, fun _ _ _ => rfl, ?_, ?_, ?_⟩
  · intro d newId now s
    unfold fertilityDB.createPatient
    split <;> simp
  · intro d newId now s
    simp only [fertilityDB.createLabResult]
    by_cases h1 : (findUniquePatient s d.patientId).isNone = true
    · simp [h1]
    by_cases h2 : cycleMissing s (truthyCycleId d.cycleId) = true
    · simp [h1, h2]
    · simp [h1, h2]
  · intro d newId now s
    unfold fertilityDB.createTreatmentCycle
    split <;> simp
  · intro req f inferOut newId now s
    unfold AiProcessRoute.POST
    split
    · exact ⟨[], by simp⟩
    split
    · exact ⟨[], by simp⟩
    split
    · exact ⟨[], by simp⟩
    split
    · exact ⟨[], by simp⟩
    split
    · exact ⟨[], by simp⟩
    split
    · exact ⟨[], by simp⟩
    split
    · exact ⟨[], by simp⟩
    · rename_i hlog
      split <;> rename_i record s2 heq <;>
        · obtain ⟨added, ha⟩ := logAIInteraction_predictions_append
            { input := AiProcessRoute.postMessage req, output := inferOut,
              model := AiProcessRoute.MODEL_NAME, confidence := none,
              patientId := AiProcessRoute.postPatientId req,
              cycleId := AiProcessRoute.postCycleId req, context := req.context }
            newId now s
          rw [heq] at ha
          exact ⟨added, ha⟩
  · intro p f s
    unfold AiProcessRoute.GET
    split <;> try rfl
    split <;> try rfl
    split <;> try rfl
    split <;> rfl
  · intro p f s
    unfold PatientsRoute.GET
    split <;> rfl

/-- C9: the consultation `POST` never returns a 5xx — its status is
always 200, 400 or 404; a request whose body is not valid JSON is
absorbed by the outer catch and yields the 200 fallback response (not a
400), and so does a store error during the patient existence pre-check
(reached when message and patientId are non-empty). -/
theorem C9_post_status_total
    (req : AiProcessRoute.PostReq) (f : AiProcessRoute.PostFaults)
    (inferOut newId : String) (now : Int) (s : Store) :
    ((AiProcessRoute.POST req f inferOut newId now s).1.status = 200 ∨
     (AiProcessRoute.POST req f inferOut newId now s).1.status = 400 ∨
     (AiProcessRoute.POST req f inferOut newId now s).1.status = 404) ∧
    (AiProcessRoute.POST req ⟨true, f.findFault, f.inferFault, f.logFault⟩
        inferOut newId now s).1 = AiProcessRoute.fallbackResp now ∧
    ((AiProcessRoute.postMessage req).isEmpty = false →
      (AiProcessRoute.postPatientId req).isEmpty = false →
      (AiProcessRoute.POST req ⟨false, true, f.inferFault, f.logFault⟩
          inferOut newId now s).1 = AiProcessRoute.fallbackResp now) := by
  refine ⟨?_, by simp [AiProcessRoute.POST],
    fun hm hp => by simp [AiProcessRoute.POST, hm, hp]⟩
  unfold AiProcessRoute.POST
  split_ifs <;> try simp [AiProcessRoute.fallbackResp]
  split <;> simp

/-- C9 witness: a failing patient pre-check on the concrete sample
request yields the concrete fallback response. -/
theorem C9_witness :
    (AiProcessRoute.POST demoReq ⟨false, true, false, false⟩ "out" "r1" 7 demoStore).1 =
      AiProcessRoute.fallbackResp 7 :=
  (C9_post_status_total demoReq ⟨false, false, false, false⟩ "out" "r1" 7
    demoStore).2.2 (by decide) (by decide)

/-- C6 counterexample: a `limit` parameter of `-1` parses to `-1`
(truthy and nonzero, so the `|| 10` default does not engage) and
`Math.min(-1, 50) = -1` is forwarded to the store as a negative `take`,
which selects from the end of the ordering instead of truncating: for a
patient with one audit row the 200 response carries one history row,
although the effective limit is `-1` — the history is not "truncated to
the effective limit" as the claim states it. -/
theorem C6_counterexample :
    AiProcessRoute.historyLimit (some "-1") = -1 ∧
    (AiProcessRoute.GET ⟨some "p1", some "-1"⟩ ⟨false, false⟩ histStore).1.status = 200 ∧
    (AiProcessRoute.historyRowsOf
      (AiProcessRoute.GET ⟨some "p1", some "-1"⟩ ⟨false, false⟩ histStore).1).length = 1 ∧
    ¬ (((AiProcessRoute.historyRowsOf
        (AiProcessRoute.GET ⟨some "p1", some "-1"⟩ ⟨false, false⟩ histStore).1).length : Int) ≤
       AiProcessRoute.historyLimit (some "-1")) := by decide

/-- C6 (amended): for every history `GET` for an existing patient whose
limit parameter does not come out negative (the amendment forced by the
counterexample: a negative parsed limit is forwarded to the store as a
negative `take` and selects from the end of the ordering instead of
truncating), the response is 200, the history is exactly the first
effective-limit-many rows of the patient's audit rows ordered by
creation time descending, every returned row is one of that patient's
stored audit rows, the effective limit is 10 when the parameter is
absent and never exceeds 50, and the request has no side effects. -/
theorem C6_history_read_contract
    (p : AiProcessRoute.HistoryParams) (s : Store) (pid : String)
    (hq : p.patientId = some pid) (hne : pid.isEmpty = false)
    (hex : patientExists s pid = true)
    (hlim : 0 ≤ AiProcessRoute.historyLimit p.limit) :
    (AiProcessRoute.GET p ⟨false, false⟩ s).1.status = 200 ∧
    AiProcessRoute.historyRowsOf (AiProcessRoute.GET p ⟨false, false⟩ s).1 =
      ((AiProcessRoute.historyRowsFor s pid).take
        (AiProcessRoute.historyLimit p.limit).toNat).map AiProcessRoute.toPredRow ∧
    (∀ row ∈ AiProcessRoute.historyRowsOf (AiProcessRoute.GET p ⟨false, false⟩ s).1,
      ∃ q ∈ s.predictions, q.patientId = pid ∧ AiProcessRoute.toPredRow q = row) ∧
    List.Sorted (fun a b : AiProcessRoute.PredRow => b.createdAt ≤ a.createdAt)
      (AiProcessRoute.historyRowsOf (AiProcessRoute.GET p ⟨false, false⟩ s).1) ∧
    (AiProcessRoute.historyRowsOf (AiProcessRoute.GET p ⟨false, false⟩ s).1).length ≤
      (AiProcessRoute.historyLimit p.limit).toNat ∧
    AiProcessRoute.historyLimit none = 10 ∧
    AiProcessRoute.historyLimit p.limit ≤ 50 ∧
    (AiProcessRoute.GET p ⟨false, false⟩ s).2.1 = s ∧
    (AiProcessRoute.GET p ⟨false, false⟩ s).2.2.auditInserts = 0 := by
  have hpe : (findUniquePatient s pid).isSome = true := hex
  obtain ⟨pt, hpt⟩ := Option.isSome_iff_exists.mp hpe
  have hget : AiProcessRoute.GET p ⟨false, false⟩ s =
      ({ status := 200,
         body := AiProcessRoute.HistoryBody.history pid
           (AiProcessRoute.historyLimit p.limit)
           ((prismaTake (AiProcessRoute.historyLimit p.limit)
             (AiProcessRoute.historyRowsFor s pid)).map AiProcessRoute.toPredRow) },
        s, ⟨0, 1, 1, 0⟩) := by
    simp [AiProcessRoute.GET, hq, hne, hpt]
  have htake : prismaTake (AiProcessRoute.historyLimit p.limit)
      (AiProcessRoute.historyRowsFor s pid) =
      (AiProcessRoute.historyRowsFor s pid).take
        (AiProcessRoute.historyLimit p.limit).toNat := by
    rw [prismaTake, if_pos hlim]
  have hrows : AiProcessRoute.historyRowsOf (AiProcessRoute.GET p ⟨false, false⟩ s).1 =
      ((AiProcessRoute.historyRowsFor s pid).take
        (AiProcessRoute.historyLimit p.limit).toNat).map AiProcessRoute.toPredRow := by
    rw [hget]
    simp [AiProcessRoute.historyRowsOf, htake]
  have hsorted : List.Sorted predOrder (AiProcessRoute.historyRowsFor s pid) :=
    List.sorted_insertionSort predOrder _
  refine ⟨by rw [hget], hrows, ?_, ?_, ?_, rfl, ?_, by rw [hget], by rw [hget]⟩
  · intro row hrow
    rw [hrows] at hrow
    obtain ⟨q, hqmem, hqeq⟩ := List.mem_map.mp hrow
    have hq1 : q ∈ AiProcessRoute.historyRowsFor s pid := List.mem_of_mem_take hqmem
    have hq2 : q ∈ s.predictions.filter (fun r => r.patientId == pid) :=
      (List.mem_insertionSort predOrder).mp hq1
    obtain ⟨hq3, hq4⟩ := List.mem_filter.mp hq2
    exact ⟨q, hq3, eq_of_beq hq4, hqeq⟩
  · rw [hrows]
    rw [List.Sorted, List.pairwise_map]
    exact (hsorted.sublist (List.take_sublist _ _))
  · rw [hrows]
    simp [List.length_take]
  · unfold AiProcessRoute.historyLimit
    rcases p.limit with _ | sp
    · decide
    · dsimp only
      split_ifs
      · decide
      · exact min_le_right _ _

/-- C6 witness: a positive concrete limit against the store with one
audit row. -/
theorem C6_witness :
    (AiProcessRoute.GET ⟨some "p1", some "5"⟩ ⟨false, false⟩ histStore).1.status = 200 ∧
    (AiProcessRoute.historyRowsOf
      (AiProcessRoute.GET ⟨some "p1", some "5"⟩ ⟨false, false⟩ histStore).1).length ≤
      (AiProcessRoute.historyLimit (some "5")).toNat :=
  have h := C6_history_read_contract ⟨some "p1", some "5"⟩ histStore "p1"
    rfl (by decide) (by decide) (by decide)
  ⟨h.1, h.2.2.2.2.1⟩

/-- Auxiliary: a nonnegative Prisma take returns at most `n.toNat`
rows. -/
theorem length_prismaTake_le {α : Type} (n : Int) (l : List α) (h : 0 ≤ n) :
    (prismaTake n l).length ≤ n.toNat := by
  rw [prismaTake, if_pos h]
  simp [List.length_take]

/-- Auxiliary: Prisma take always returns rows of the queried list. -/
theorem mem_of_mem_prismaTake {α : Type} {a : α} {n : Int} {l : List α}
    (h : a ∈ prismaTake n l) : a ∈ l := by
  rw [prismaTake] at h
  split_ifs at h
  · exact List.mem_of_mem_take h
  · exact List.mem_of_mem_drop h

/-- C7: for every patients `GET` (with no store fault): the response is
a 200 that does not mutate the store; `limit=999` clamps the take to 50
and at most 50 rows come back; a blank (or absent) search applies no
`where` filter, and with the default limit of 20 every patient is
returned whenever at most 20 exist; a non-blank search returns only
patients matching the case-insensitive substring filter on first name,
last name, email or MRN; and the returned data is the image of the
`take`-truncation of the query result ordered by most-recently-updated
then most-recently-created. -/
theorem C7_patient_directory_contract
    (p : PatientsRoute.PatientsParams) (s : Store) :
    (PatientsRoute.GET p ⟨false⟩ s).1.status = 200 ∧
    (PatientsRoute.GET p ⟨false⟩ s).2 = s ∧
    (p.limit = some "999" → PatientsRoute.patientsTake p.limit = 50 ∧
      (PatientsRoute.dataOf (PatientsRoute.GET p ⟨false⟩ s).1).length ≤ 50) ∧
    ((jsTrim (p.search.getD "")).isEmpty = true →
      PatientsRoute.patientsWhere (jsTrim (p.search.getD "")) = none ∧
      (p.limit = none → PatientsRoute.patientsTake p.limit = 20 ∧
        (s.patients.length ≤ 20 →
          ∀ q ∈ s.patients, PatientsRoute.toPatientRow q ∈
            PatientsRoute.dataOf (PatientsRoute.GET p ⟨false⟩ s).1))) ∧
    ((jsTrim (p.search.getD "")).isEmpty = false →
      ∀ row ∈ PatientsRoute.dataOf (PatientsRoute.GET p ⟨false⟩ s).1,
        ∃ q ∈ s.patients,
          PatientsRoute.matchesSearch (jsTrim (p.search.getD "")) q = true ∧
          PatientsRoute.toPatientRow q = row) ∧
    List.Sorted patOrder
      (PatientsRoute.patientsSorted s
        (PatientsRoute.patientsWhere (jsTrim (p.search.getD "")))) ∧
    PatientsRoute.dataOf (PatientsRoute.GET p ⟨false⟩ s).1 =
      (prismaTake (PatientsRoute.patientsTake p.limit)
        (PatientsRoute.patientsSorted s
          (PatientsRoute.patientsWhere (jsTrim (p.search.getD ""))))).map
        PatientsRoute.toPatientRow := by
  have hdata : PatientsRoute.dataOf (PatientsRoute.GET p ⟨false⟩ s).1 =
      PatientsRoute.resultRows p s := by
    simp [PatientsRoute.GET, PatientsRoute.dataOf]
  refine ⟨by simp [PatientsRoute.GET], by simp [PatientsRoute.GET], ?_, ?_, ?_,
    List.sorted_insertionSort patOrder _, hdata⟩
  · intro hl
    have ht : PatientsRoute.patientsTake p.limit = 50 := by rw [hl]; decide
    refine ⟨ht, ?_⟩
    rw [hdata, PatientsRoute.resultRows, List.length_map, ht]
    exact length_prismaTake_le 50 _ (by decide)
  · intro hse
    have hw : PatientsRoute.patientsWhere (jsTrim (p.search.getD "")) = none := by
      rw [PatientsRoute.patientsWhere, if_pos hse]
    refine ⟨hw, ?_⟩
    intro hlim
    refine ⟨by rw [hlim]; rfl, ?_⟩
    intro hlen q hqmem
    rw [hdata, PatientsRoute.resultRows, hw]
    have hsortlen : (PatientsRoute.patientsSorted s none).length = s.patients.length :=
      (List.perm_insertionSort patOrder s.patients).length_eq
    have htk : prismaTake (PatientsRoute.patientsTake p.limit)
        (PatientsRoute.patientsSorted s none) = PatientsRoute.patientsSorted s none := by
      rw [hlim]
      show prismaTake 20 _ = _
      rw [prismaTake, if_pos (by decide : (0 : Int) ≤ 20)]
      exact List.take_of_length_le (by rw [hsortlen]; exact le_trans hlen (by decide))
    rw [htk]
    exact List.mem_map_of_mem PatientsRoute.toPatientRow
      ((List.mem_insertionSort patOrder).mpr hqmem)
  · intro hse row hrow
    rw [hdata, PatientsRoute.resultRows] at hrow
    obtain ⟨q, hqmem, hqeq⟩ := List.mem_map.mp hrow
    have hq1 := mem_of_mem_prismaTake hqmem
    rw [PatientsRoute.patientsWhere, if_neg (by simp [hse])] at hq1
    simp only [PatientsRoute.patientsSorted] at hq1
    have hq2 := (List.mem_insertionSort patOrder).mp hq1
    obtain ⟨hq3, hq4⟩ := List.mem_filter.mp hq2
    exact ⟨q, hq3, hq4, hqeq⟩

/-- C7 witness: concrete parameter sets against the sample store,
discharging each hypothesis of the contract. -/
theorem C7_witness :
    (PatientsRoute.patientsTake (some "999") = 50 ∧
      (PatientsRoute.dataOf (PatientsRoute.GET ⟨some "x", some "999"⟩ ⟨false⟩ demoStore).1).length ≤ 50) ∧
    PatientsRoute.patientsWhere (jsTrim ((none : Option String).getD "")) = none ∧
    (∀ row ∈ PatientsRoute.dataOf (PatientsRoute.GET ⟨some "Ada", none⟩ ⟨false⟩ demoStore).1,
      ∃ q ∈ demoStore.patients,
        PatientsRoute.matchesSearch (jsTrim ((some "Ada").getD "")) q = true ∧
        PatientsRoute.toPatientRow q = row) :=
  ⟨(C7_patient_directory_contract ⟨some "x", some "999"⟩ demoStore).2.2.1 rfl,
   ((C7_patient_directory_contract ⟨none, none⟩ demoStore).2.2.2.1 (by decide)).1,
   (C7_patient_directory_contract ⟨some "Ada", none⟩ demoStore).2.2.2.2.1 (by decide)⟩

/-- C8: for every successful patients `GET`, `hasMore` is exactly the
test "number of returned rows equals the effective (clamped) limit" and
`count` is the number of returned rows; in particular, against the
sample store with a single patient and `limit=1`, `hasMore` is `true`
although every patient was returned, i.e. no further page exists. -/
theorem C8_hasMore_heuristic (p : PatientsRoute.PatientsParams) (s : Store) :
    PatientsRoute.hasMoreOf (PatientsRoute.GET p ⟨false⟩ s).1 =
      decide ((PatientsRoute.countOf (PatientsRoute.GET p ⟨false⟩ s).1 : Int) =
        PatientsRoute.patientsTake p.limit) ∧
    PatientsRoute.countOf (PatientsRoute.GET p ⟨false⟩ s).1 =
      (PatientsRoute.dataOf (PatientsRoute.GET p ⟨false⟩ s).1).length ∧
    (PatientsRoute.hasMoreOf (PatientsRoute.GET ⟨none, some "1"⟩ ⟨false⟩ demoStore).1 = true ∧
     PatientsRoute.countOf (PatientsRoute.GET ⟨none, some "1"⟩ ⟨false⟩ demoStore).1 =
       demoStore.patients.length) := by
  refine ⟨?_, ?_, by decide⟩ <;>
    simp [PatientsRoute.GET, PatientsRoute.hasMoreOf, PatientsRoute.countOf,
      PatientsRoute.dataOf]

/-- C10: the patients `GET` clamps the limit from below at 1: every
parameter parsing to an integer `n ≤ 0` (zero and negatives included)
yields a take of 1, never the default of 20; the default of 20 arises
exactly from an absent, empty or non-numeric parameter; and a numeric
parameter always yields the clamp `min (max n 1) 50`. -/
theorem C10_limit_lower_clamp :
    (∀ sp n, parseIntJS sp = some n → n ≤ 0 → sp.isEmpty = false →
      PatientsRoute.patientsTake (some sp) = 1) ∧
    PatientsRoute.patientsTake none = 20 ∧
    PatientsRoute.patientsTake (some "") = 20 ∧
    (∀ sp, parseIntJS sp = none → PatientsRoute.patientsTake (some sp) = 20) ∧
    (∀ sp n, parseIntJS sp = some n → sp.isEmpty = false →
      PatientsRoute.patientsTake (some sp) = min (max n 1) 50) := by
  have hnum : ∀ sp n, parseIntJS sp = some n → sp.isEmpty = false →
      PatientsRoute.patientsTake (some sp) = min (max n 1) 50 := by
    intro sp n hp hne
    rw [PatientsRoute.patientsTake]
    simp only [hne, Bool.false_eq_true, if_false, hp]
  refine ⟨?_, rfl, rfl, ?_, hnum⟩
  · intro sp n hp hn hne
    rw [hnum sp n hp hne]
    omega
  · intro sp hp
    rw [PatientsRoute.patientsTake]
    by_cases hne : sp.isEmpty = true
    · simp [hne]
    · simp only [hne, if_false, hp]
      simp at hne
      simp [hne]

/-- C10 witness: the concrete parameters `-7` and `0` both clamp to a
take of 1. -/
theorem C10_witness :
    PatientsRoute.patientsTake (some "-7") = 1 ∧
    PatientsRoute.patientsTake (some "0") = 1 :=
  ⟨C10_limit_lower_clamp.1 "-7" (-7) (by decide) (by decide) (by decide),
   C10_limit_lower_clamp.1 "0" 0 (by decide) (by decide) (by decide)⟩

end FertiClaude
